import Mathlib

/-
  Verification of the LunaTV presentation-layer components:
  - AIRecommendModal.tsx (chat transcript, localStorage cache, send path)
  - AIRecommendConfig.tsx (settings validation, save and test requests)
  - YouTubeVideoCard.tsx (title truncation)

  The TypeScript components are shallowly embedded: component state is an
  explicit record, browser events are explicit steps, the network and the
  browser storage are parameters (their outcomes are arguments), and times
  are passed in explicitly (milliseconds as Int, ISO strings as String).
-/

namespace LunaTV

/-- Message roles, from the `AIMessage` usage in AIRecommendModal.tsx
(only 'user' and 'assistant' occur). -/
inductive Role where
  | user
  | assistant
  deriving DecidableEq

/-- `MovieRecommendation` from ai-recommend.client as used in
AIRecommendModal.tsx (title, year?, genre?, description?, poster?). -/
structure MovieRecommendation where
  title : String
  year : Option String
  genre : Option String
  description : Option String
  poster : Option String
  deriving DecidableEq

/-- `ExtendedAIMessage`: role, content, timestamp (ISO string; the empty
string models an absent/falsy timestamp in cached JSON), and optional
recommendations. -/
structure ChatMessage where
  role : Role
  content : String
  timestamp : String
  recommendations : Option (List MovieRecommendation)
  deriving DecidableEq

/-- The cached record stored under the single localStorage key
`ai-recommend-messages`: `{ messages, timestamp }` with the timestamp in
milliseconds (`new Date().getTime()`). -/
structure Cache where
  messages : List ChatMessage
  timestamp : Int
  deriving DecidableEq

/-- The single localStorage key used by the modal. -/
def storageKey : String := "ai-recommend-messages"

/-- The fixed welcome message (AIRecommendModal.tsx lines 62-66 and
188-192), timestamped with the current ISO time. -/
def welcomeMessage (nowIso : String) : ChatMessage :=
  ⟨Role.assistant,
   "你好！我是AI影视推荐助手，可以根据你的喜好为你推荐精彩的影视作品。请告诉我你想看什么类型的影片，或者描述一下你的心情和偏好吧！",
   nowIso, none⟩

/-- The per-message restore step `{...msg, timestamp: msg.timestamp ||
new Date().toISOString()}` (line 53-56): a falsy (empty/absent) timestamp
is replaced by the current time. -/
def fillTimestamp (nowIso : String) (m : ChatMessage) : ChatMessage :=
  if m.timestamp = "" then { m with timestamp := nowIso } else m

/-- Outcome of reading and parsing the cached record in the load effect:
`failed` models a localStorage read or JSON parse throw, `ok none` models
an absent item, `ok (some c)` a parsed `{messages, timestamp}` record. -/
inductive LoadOutcome where
  | failed
  | ok (cache : Option Cache)

/-- The load effect (AIRecommendModal.tsx lines 45-71), as a function of
the read/parse outcome, the current time, and the prior transcript
(relevant only on failure, where the catch leaves state untouched). -/
def loadEffect (outcome : LoadOutcome) (nowMs : Int) (nowIso : String)
    (prior : List ChatMessage) : List ChatMessage :=
  match outcome with
  | .failed => prior
  | .ok none => [welcomeMessage nowIso]
  | .ok (some c) =>
      if nowMs - c.timestamp < 30 * 60 * 1000 then
        c.messages.map (fillTimestamp nowIso)
      else
        [welcomeMessage nowIso]

/-- Claim C2 as stated is false: a fresh cached message whose own
timestamp field is empty is not restored verbatim — its timestamp is
replaced by the current time (line 55), so the transcript differs from
the cached messages. -/
theorem c2_counterexample :
    loadEffect (.ok (some ⟨[⟨Role.assistant, "hi", "", none⟩], 0⟩)) 0 "2024-01-01" []
      ≠ [⟨Role.assistant, "hi", "", none⟩] ∧ (0 : Int) - 0 < 1800000 := by
  constructor
  · decide
  · decide

/-- Claim C2 (amended): on load, a cached record fresher than 1800 s is
restored as the transcript with each message's empty timestamp replaced
by the current time (verbatim when all cached timestamps are nonempty);
a stale record, or no record, yields the single welcome message. -/
theorem c2_load_cache (c : Cache) (nowMs : Int) (nowIso : String)
    (prior : List ChatMessage) :
    (nowMs - c.timestamp < 1800000 →
      loadEffect (.ok (some c)) nowMs nowIso prior
        = c.messages.map (fillTimestamp nowIso) ∧
      ((∀ m ∈ c.messages, m.timestamp ≠ "") →
        loadEffect (.ok (some c)) nowMs nowIso prior = c.messages)) ∧
    (¬ nowMs - c.timestamp < 1800000 →
      loadEffect (.ok (some c)) nowMs nowIso prior = [welcomeMessage nowIso]) ∧
    loadEffect (.ok none) nowMs nowIso prior = [welcomeMessage nowIso] := by
  refine ⟨fun hfresh => ?_, fun hstale => ?_, rfl⟩
  · have hif : nowMs - c.timestamp < 30 * 60 * 1000 := by omega
    have hres : loadEffect (.ok (some c)) nowMs nowIso prior
        = c.messages.map (fillTimestamp nowIso) := by
      simp only [loadEffect]
      rw [if_pos hif]
    refine ⟨hres, fun hts => ?_⟩
    rw [hres]
    have : c.messages.map (fillTimestamp nowIso) = c.messages.map id := by
      refine List.map_congr_left (fun m hm => ?_)
      simp [fillTimestamp, hts m hm]
    simp [this]
  · have hif : ¬ nowMs - c.timestamp < 30 * 60 * 1000 := by omega
    simp only [loadEffect]
    rw [if_neg hif]

/-- Witness for c2_load_cache at a concrete fresh cache with a nonempty
message timestamp: the cached message is restored verbatim. -/
theorem c2_load_cache_witness :
    loadEffect (.ok (some ⟨[⟨Role.user, "hey", "T0", none⟩], 0⟩)) 0 "T1" []
      = [⟨Role.user, "hey", "T0", none⟩] :=
  ((c2_load_cache ⟨[⟨Role.user, "hey", "T0", none⟩], 0⟩ 0 "T1" []).1
    (by decide)).2 (by decide)

/-- JavaScript `String.prototype.trim()`: strip leading and trailing
whitespace. Defined on the character list so that it evaluates by kernel
reduction. -/
def jsTrim (s : String) : String :=
  ⟨((s.data.dropWhile Char.isWhitespace).reverse.dropWhile
      Char.isWhitespace).reverse⟩

/-- The two-part error state `{message, details?}` set by the catch in
`sendMessage` (AIRecommendModal.tsx line 35). -/
structure ErrorState where
  message : String
  details : Option String
  deriving DecidableEq

/-- A value thrown by `sendAIRecommendMessage`, classified the way the
catch in `sendMessage` (lines 131-153) inspects it: an Error whose
`.message` parses as a JSON object (with optional `error` and `details`
fields), an Error whose `.message` is not such an object, or a thrown
value that is not an Error instance. -/
inductive ThrownError where
  | errWithJson (errField : Option String) (detailsField : Option String)
      (rawMessage : String)
  | errPlain (rawMessage : String)
  | nonError
  deriving DecidableEq

/-- The error processing of the catch in `sendMessage` (lines 134-153):
`errorResponse.error || error.message` falls back to the raw message when
the parsed `error` field is absent or empty. -/
def handleSendError : ThrownError → ErrorState
  | .errWithJson errField detailsField raw =>
      ⟨match errField with
        | some s => if s = "" then raw else s
        | none => raw,
       detailsField⟩
  | .errPlain raw => ⟨raw, some "如果问题持续，请联系管理员检查AI配置"⟩
  | .nonError => ⟨"请求失败，请稍后重试", some "未知错误，请检查网络连接"⟩

/-- `response.choices[i].message` of the chat-completion response. -/
structure ChatChoiceMessage where
  content : String
  deriving DecidableEq

/-- One element of `response.choices`. -/
structure ChatChoice where
  message : ChatChoiceMessage
  deriving DecidableEq

/-- The chat-completion response shape consumed by `sendMessage`:
`choices` and an optional `recommendations` list. -/
structure ChatResponse where
  choices : List ChatChoice
  recommendations : Option (List MovieRecommendation)
  deriving DecidableEq

/-- The component state of AIRecommendModal touched by `sendMessage`:
messages, inputMessage, isLoading, error (lines 32-35). -/
structure ModalState where
  messages : List ChatMessage
  inputMessage : String
  isLoading : Bool
  error : Option ErrorState
  deriving DecidableEq

/-- The message of the TypeError raised when `response.choices[0]` is
absent and `.message` is read from undefined (engine-dependent text; it
does not parse as JSON, so it is handled by the plain-Error branch). -/
def undefinedChoiceMessage : String :=
  "Cannot read properties of undefined"

/-- `sendMessage` (AIRecommendModal.tsx lines 103-157), parameterised by
the current ISO time and by the outcome of the awaited
`sendAIRecommendMessage` call. Returns the final component state and the
list of outbound request payloads made during the call (each payload is
the `conversationHistory` argument, i.e. `updatedMessages.slice(-8)`). -/
def sendMessage (st : ModalState) (content nowIso : String)
    (result : Except ThrownError ChatResponse) :
    ModalState × List (List ChatMessage) :=
  if jsTrim content = "" ∨ st.isLoading = true then (st, [])
  else
    let userMessage : ChatMessage := ⟨Role.user, jsTrim content, nowIso, none⟩
    let updatedMessages := st.messages ++ [userMessage]
    let conversationHistory := updatedMessages.drop (updatedMessages.length - 8)
    let st' : ModalState :=
      match result with
      | .ok resp =>
          match resp.choices.head? with
          | some choice =>
              ⟨updatedMessages ++ [⟨Role.assistant, choice.message.content, nowIso,
                  some (resp.recommendations.getD [])⟩], "", false, none⟩
          | none =>
              ⟨updatedMessages, "", false,
               some (handleSendError (.errPlain undefinedChoiceMessage))⟩
      | .error e => ⟨updatedMessages, "", false, some (handleSendError e)⟩
    (st', [conversationHistory])

/-- Claim C9: for blank (empty or whitespace-only) input, or while a
previous request is in flight, `sendMessage` is a no-op: state is
unchanged and no outbound request is made (line 104). -/
theorem c9_send_noop (st : ModalState) (content nowIso : String)
    (result : Except ThrownError ChatResponse)
    (h : jsTrim content = "" ∨ st.isLoading = true) :
    sendMessage st content nowIso result = (st, []) := by
  simp only [sendMessage]
  rw [if_pos h]

/-- Witness for c9_send_noop: whitespace-only input on an idle state. -/
theorem c9_send_noop_witness :
    sendMessage ⟨[], "", false, none⟩ "   " "T" (.error .nonError)
      = (⟨[], "", false, none⟩, []) :=
  c9_send_noop ⟨[], "", false, none⟩ "   " "T" (.error .nonError) (by decide)

/-- Claim C1: for every transcript and non-blank input, the single
outbound payload is exactly the last 8 messages of the transcript with
the new user message appended (all of it when it has at most 8
messages), whatever the transcript length. -/
theorem c1_last_eight (st : ModalState) (content nowIso : String)
    (result : Except ThrownError ChatResponse)
    (h1 : jsTrim content ≠ "") (h2 : st.isLoading = false) :
    ∃ payload pre,
      (sendMessage st content nowIso result).2 = [payload] ∧
      st.messages ++ [⟨Role.user, jsTrim content, nowIso, none⟩] = pre ++ payload ∧
      payload.length = min 8 (st.messages.length + 1) ∧
      (st.messages.length + 1 ≤ 8 →
        payload = st.messages ++ [⟨Role.user, jsTrim content, nowIso, none⟩]) := by
  have hguard : ¬ (jsTrim content = "" ∨ st.isLoading = true) := by
    simp [h1, h2]
  set u : ChatMessage := ⟨Role.user, jsTrim content, nowIso, none⟩ with hu
  set updated := st.messages ++ [u] with hupd
  refine ⟨updated.drop (updated.length - 8), updated.take (updated.length - 8),
    ?_, ?_, ?_, ?_⟩
  · simp only [sendMessage]
    rw [if_neg hguard]
  · exact (List.take_append_drop _ _).symm
  · have hlen : updated.length = st.messages.length + 1 := by
      simp [hupd]
    rw [List.length_drop, hlen]
    omega
  · intro hle
    have hz : updated.length - 8 = 0 := by
      simp [hupd]
      omega
    rw [hz, List.drop_zero]

/-- Witness for c1_last_eight: a 10-message transcript and input "hi"
yield a single 8-message payload. -/
theorem c1_last_eight_witness :
    ∃ payload pre,
      (sendMessage ⟨List.replicate 10 (welcomeMessage "T0"), "", false, none⟩
          "hi" "T" (.error .nonError)).2 = [payload] ∧
      List.replicate 10 (welcomeMessage "T0")
          ++ [⟨Role.user, jsTrim "hi", "T", none⟩] = pre ++ payload ∧
      payload.length = min 8 ((List.replicate 10 (welcomeMessage "T0")).length + 1) ∧
      ((List.replicate 10 (welcomeMessage "T0")).length + 1 ≤ 8 →
        payload = List.replicate 10 (welcomeMessage "T0")
          ++ [⟨Role.user, jsTrim "hi", "T", none⟩]) :=
  c1_last_eight ⟨List.replicate 10 (welcomeMessage "T0"), "", false, none⟩
    "hi" "T" (.error .nonError) (by decide) rfl

/-- Claim C3: when the send fails with a thrown error, the transcript
afterwards is the prior transcript plus the user message only, the
two-part error is set, the loading flag is cleared, and exactly one
request was made (no retry). -/
theorem c3_send_failure (st : ModalState) (content nowIso : String)
    (e : ThrownError) (h1 : jsTrim content ≠ "") (h2 : st.isLoading = false) :
    (sendMessage st content nowIso (.error e)).1.messages
        = st.messages ++ [⟨Role.user, jsTrim content, nowIso, none⟩] ∧
    (sendMessage st content nowIso (.error e)).1.error = some (handleSendError e) ∧
    (sendMessage st content nowIso (.error e)).1.isLoading = false ∧
    (sendMessage st content nowIso (.error e)).2.length = 1 := by
  have hguard : ¬ (jsTrim content = "" ∨ st.isLoading = true) := by
    simp [h1, h2]
  simp only [sendMessage]
  rw [if_neg hguard]
  exact ⟨rfl, rfl, rfl, rfl⟩

/-- Witness for c3_send_failure: a failed send on an idle one-message
transcript. -/
theorem c3_send_failure_witness :
    (sendMessage ⟨[welcomeMessage "T0"], "", false, none⟩ "hi" "T"
        (.error .nonError)).1.messages
      = [welcomeMessage "T0"] ++ [⟨Role.user, jsTrim "hi", "T", none⟩] ∧
    (sendMessage ⟨[welcomeMessage "T0"], "", false, none⟩ "hi" "T"
        (.error .nonError)).1.error = some (handleSendError .nonError) ∧
    (sendMessage ⟨[welcomeMessage "T0"], "", false, none⟩ "hi" "T"
        (.error .nonError)).1.isLoading = false ∧
    (sendMessage ⟨[welcomeMessage "T0"], "", false, none⟩ "hi" "T"
        (.error .nonError)).2.length = 1 :=
  c3_send_failure ⟨[welcomeMessage "T0"], "", false, none⟩ "hi" "T"
    .nonError (by decide) rfl

/-- Claim C6: on a successful send (a response with a first choice),
exactly one assistant message is appended after the user message to the
full untruncated transcript; its content is `choices[0].message.content`
and its recommendations are the response's list, or [] when absent. -/
theorem c6_send_success (st : ModalState) (content nowIso : String)
    (resp : ChatResponse) (choice : ChatChoice) (rest : List ChatChoice)
    (h1 : jsTrim content ≠ "") (h2 : st.isLoading = false)
    (hc : resp.choices = choice :: rest) :
    (sendMessage st content nowIso (.ok resp)).1.messages
      = (st.messages ++ [⟨Role.user, jsTrim content, nowIso, none⟩])
        ++ [⟨Role.assistant, choice.message.content, nowIso,
             some (resp.recommendations.getD [])⟩] ∧
    (sendMessage st content nowIso (.ok resp)).1.error = none := by
  have hguard : ¬ (jsTrim content = "" ∨ st.isLoading = true) := by
    simp [h1, h2]
  simp only [sendMessage]
  rw [if_neg hguard]
  simp [hc]

/-- Witness for c6_send_success: a concrete response with one choice and
no recommendations appended to an empty transcript. -/
theorem c6_send_success_witness :
    (sendMessage ⟨[], "", false, none⟩ "hi" "T"
        (.ok ⟨[⟨⟨"try this"⟩⟩], none⟩)).1.messages
      = ([] ++ [⟨Role.user, jsTrim "hi", "T", none⟩])
        ++ [⟨Role.assistant, (ChatChoice.mk ⟨"try this"⟩).message.content, "T",
             some ((none : Option (List MovieRecommendation)).getD [])⟩] ∧
    (sendMessage ⟨[], "", false, none⟩ "hi" "T"
        (.ok ⟨[⟨⟨"try this"⟩⟩], none⟩)).1.error = none :=
  c6_send_success ⟨[], "", false, none⟩ "hi" "T" ⟨[⟨⟨"try this"⟩⟩], none⟩
    ⟨⟨"try this"⟩⟩ [] (by decide) rfl rfl

/-- `resetChat` (AIRecommendModal.tsx lines 179-196): the component-state
part. The `try` wraps only `localStorage.removeItem`, so the state
changes below are unconditional. -/
def resetChat (st : ModalState) (nowIso : String) : ModalState :=
  ⟨[welcomeMessage nowIso], "", st.isLoading, none⟩

/-- The save effect (AIRecommendModal.tsx lines 74-85): on success the
value under the storage key becomes `{messages, timestamp: now}`; a
`setItem` throw is caught and leaves storage as it was. -/
def runSave (writeOk : Bool) (msgs : List ChatMessage) (nowMs : Int)
    (storage : Option Cache) : Option Cache :=
  if writeOk then some ⟨msgs, nowMs⟩ else storage

/-- Component state together with the value held under the single
localStorage key `ai-recommend-messages` (none = key absent). -/
structure World where
  st : ModalState
  storage : Option Cache
  deriving DecidableEq

/-- One user-visible event on the modal: the mount-time load effect, a
send (with the outcome of the network call), or a reset (with the
outcome of the `removeItem` call). -/
inductive ModalEvent where
  | load (outcome : LoadOutcome)
  | send (content : String) (result : Except ThrownError ChatResponse)
  | reset (removeOk : Bool)

/-- Whether the event's handler calls `setMessages` (each call passes a
fresh array, so the `[messages]` save effect re-runs exactly when the
handler set the messages state). -/
def mutatesTranscript (e : ModalEvent) (st : ModalState) : Prop :=
  match e with
  | .load .failed => False
  | .load (.ok _) => True
  | .send content _ => ¬ (jsTrim content = "" ∨ st.isLoading = true)
  | .reset _ => True

/-- One event step of the modal: run the handler, then (when a
`setMessages` happened) the `[messages]`-dependent save effect, which
rewrites the storage key with the current full transcript and a fresh
timestamp (writeOk models whether `setItem` throws). Also returns the
outbound request payloads made by the handler. -/
def stepWorld (w : World) (e : ModalEvent) (nowMs : Int) (nowIso : String)
    (writeOk : Bool) : World × List (List ChatMessage) :=
  match e with
  | .load .failed => (⟨w.st, w.storage⟩, [])
  | .load (.ok c) =>
      let msgs := loadEffect (.ok c) nowMs nowIso w.st.messages
      (⟨{ w.st with messages := msgs }, runSave writeOk msgs nowMs w.storage⟩, [])
  | .send content result =>
      if jsTrim content = "" ∨ w.st.isLoading = true then (⟨w.st, w.storage⟩, [])
      else
        let r := sendMessage w.st content nowIso result
        (⟨r.1, runSave writeOk r.1.messages nowMs w.storage⟩, r.2)
  | .reset removeOk =>
      let st' := resetChat w.st nowIso
      let afterRemove := if removeOk then none else w.storage
      (⟨st', runSave writeOk st'.messages nowMs afterRemove⟩, [])

/-- Claim C5: after every event that mutates the transcript state, the
storage key holds the full new transcript (not a truncation) together
with the timestamp of the write, provided the write itself succeeds. -/
theorem c5_save_full_transcript (w : World) (e : ModalEvent) (nowMs : Int)
    (nowIso : String) (h : mutatesTranscript e w.st) :
    (stepWorld w e nowMs nowIso true).1.storage
      = some ⟨(stepWorld w e nowMs nowIso true).1.st.messages, nowMs⟩ := by
  cases e with
  | load outcome =>
      cases outcome with
      | failed => exact absurd h (by simp [mutatesTranscript])
      | ok c => rfl
  | send content result =>
      have hguard : ¬ (jsTrim content = "" ∨ w.st.isLoading = true) := h
      simp only [stepWorld]
      rw [if_neg hguard]
      rfl
  | reset removeOk => rfl

/-- Witness for c5_save_full_transcript: a reset on a concrete world
leaves the storage key holding exactly the fresh welcome transcript. -/
theorem c5_save_full_transcript_witness :
    (stepWorld ⟨⟨[welcomeMessage "T0"], "x", false, none⟩,
        some ⟨[welcomeMessage "T0"], 1⟩⟩ (.reset true) 5 "T1" true).1.storage
      = some ⟨(stepWorld ⟨⟨[welcomeMessage "T0"], "x", false, none⟩,
          some ⟨[welcomeMessage "T0"], 1⟩⟩ (.reset true) 5 "T1" true).1.st.messages,
        5⟩ :=
  c5_save_full_transcript ⟨⟨[welcomeMessage "T0"], "x", false, none⟩,
    some ⟨[welcomeMessage "T0"], 1⟩⟩ (.reset true) 5 "T1" trivial

/-- Claim C7 as stated is false on the load effect: the `try` there wraps
the welcome-message fallback too, so when the storage read throws, the
rest of the operation's state changes do NOT apply — the transcript stays
empty instead of becoming the welcome message. -/
theorem c7_counterexample :
    (stepWorld ⟨⟨[], "", false, none⟩, none⟩ (.load .failed) 0 "T"
        true).1.st.messages = [] ∧
    (stepWorld ⟨⟨[], "", false, none⟩, none⟩ (.load (.ok none)) 0 "T"
        true).1.st.messages = [welcomeMessage "T"] ∧
    ([] : List ChatMessage) ≠ [welcomeMessage "T"] := by
  refine ⟨rfl, rfl, by decide⟩

/-- Claim C7 (amended): storage failures are caught and logged only — no
user-visible error, no retry; a `removeItem` failure in resetChat and a
`setItem` failure in the save effect leave the rest of the operation's
state changes intact, but a read/parse failure in the load effect aborts
the whole effect, leaving component state untouched. -/
theorem c7_storage_failures (w : World) (e : ModalEvent) (nowMs : Int)
    (nowIso : String) (writeOk : Bool) :
    ((stepWorld w (.load .failed) nowMs nowIso writeOk).1 = w ∧
      (stepWorld w (.load .failed) nowMs nowIso writeOk).2 = []) ∧
    ((stepWorld w e nowMs nowIso false).1.st
        = (stepWorld w e nowMs nowIso true).1.st) ∧
    ((stepWorld w e nowMs nowIso false).2
        = (stepWorld w e nowMs nowIso true).2) ∧
    ((stepWorld w (.reset false) nowMs nowIso writeOk).1.st
        = (stepWorld w (.reset true) nowMs nowIso writeOk).1.st) := by
  refine ⟨⟨rfl, rfl⟩, ?_, ?_, rfl⟩
  · cases e with
    | load outcome => cases outcome with
      | failed => rfl
      | ok c => rfl
    | send content result =>
        by_cases hguard : jsTrim content = "" ∨ w.st.isLoading = true
        · simp only [stepWorld]
          rw [if_pos hguard, if_pos hguard]
        · simp only [stepWorld]
          rw [if_neg hguard, if_neg hguard]
    | reset removeOk => rfl
  · cases e with
    | load outcome => cases outcome with
      | failed => rfl
      | ok c => rfl
    | send content result =>
        by_cases hguard : jsTrim content = "" ∨ w.st.isLoading = true
        · simp only [stepWorld]
          rw [if_pos hguard, if_pos hguard]
        · simp only [stepWorld]
          rw [if_neg hguard, if_neg hguard]
    | reset removeOk => rfl

/-- Witness for c7_storage_failures at a concrete world and send event
(its statement has universally quantified hypotheses only through the
leading binders, discharged here at concrete values). -/
theorem c7_storage_failures_witness :
    (stepWorld ⟨⟨[], "", false, none⟩, some ⟨[], 0⟩⟩ (.load .failed) 3 "T"
        true).1 = ⟨⟨[], "", false, none⟩, some ⟨[], 0⟩⟩ ∧
    (stepWorld ⟨⟨[], "", false, none⟩, some ⟨[], 0⟩⟩ (.load .failed) 3 "T"
        true).2 = [] :=
  (c7_storage_failures ⟨⟨[], "", false, none⟩, some ⟨[], 0⟩⟩
    (.send "hi" (.error .nonError)) 3 "T" true).1

/-- The AI settings record edited by AIRecommendConfig.tsx (lines 19-26):
enable flag, endpoint URL, API key, model name, temperature (a finite
JavaScript number, modelled as a rational) and maxTokens. -/
structure AISettings where
  enabled : Bool
  apiUrl : String
  apiKey : String
  model : String
  temperature : Rat
  maxTokens : Int
  deriving DecidableEq

/-- `handleSave` (AIRecommendConfig.tsx lines 65-110): the validation
chain when enabled, then the POST to /api/admin/ai-recommend with the
settings record as body. Returns the inline error message shown (if any)
and the request body submitted (if any). -/
def handleSave (s : AISettings) : Option String × Option AISettings :=
  if s.enabled = true then
    if jsTrim s.apiUrl = "" then (some "请填写API地址", none)
    else if jsTrim s.apiKey = "" then (some "请填写API密钥", none)
    else if jsTrim s.model = "" then (some "请选择或填写模型名称", none)
    else if s.temperature < 0 ∨ 2 < s.temperature then
      (some "温度参数应在0-2之间", none)
    else if s.maxTokens < 1 ∨ 4000 < s.maxTokens then
      (some "最大Token数应在1-4000之间", none)
    else (none, some s)
  else (none, some s)

/-- Claim C4: with enabled = true, the save is rejected (an error is
shown and no persistence request is issued) exactly when a required
field is blank after trimming or a numeric field is out of range, and
otherwise the record is submitted; with enabled = false no validation
applies and the record is always submitted. -/
theorem c4_save_validation (s : AISettings) :
    (s.enabled = true →
      (((handleSave s).2 = none ∧ ∃ m, (handleSave s).1 = some m) ↔
        (jsTrim s.apiUrl = "" ∨ jsTrim s.apiKey = "" ∨ jsTrim s.model = "" ∨
         s.temperature < 0 ∨ 2 < s.temperature ∨
         s.maxTokens < 1 ∨ 4000 < s.maxTokens)) ∧
      (¬ (jsTrim s.apiUrl = "" ∨ jsTrim s.apiKey = "" ∨ jsTrim s.model = "" ∨
          s.temperature < 0 ∨ 2 < s.temperature ∨
          s.maxTokens < 1 ∨ 4000 < s.maxTokens) →
        (handleSave s).1 = none ∧ (handleSave s).2 = some s)) ∧
    (s.enabled = false →
      (handleSave s).1 = none ∧ (handleSave s).2 = some s) := by
  refine ⟨fun hen => ?_, fun hdis => ?_⟩
  · simp only [handleSave, hen, if_true]
    constructor
    · split_ifs with h1 h2 h3 h4 h5 <;> simp_all
      tauto
    · intro hnone
      split_ifs with h1 h2 h3 h4 h5
      · exact absurd (Or.inl h1) hnone
      · exact absurd (Or.inr (Or.inl h2)) hnone
      · exact absurd (Or.inr (Or.inr (Or.inl h3))) hnone
      · rcases h4 with h | h
        · exact absurd (Or.inr (Or.inr (Or.inr (Or.inl h)))) hnone
        · exact absurd (Or.inr (Or.inr (Or.inr (Or.inr (Or.inl h))))) hnone
      · rcases h5 with h | h
        · exact absurd
            (Or.inr (Or.inr (Or.inr (Or.inr (Or.inr (Or.inl h)))))) hnone
        · exact absurd
            (Or.inr (Or.inr (Or.inr (Or.inr (Or.inr (Or.inr h)))))) hnone
      · exact ⟨rfl, rfl⟩
  · simp [handleSave, hdis]

/-- Witness for c4_save_validation: an enabled record with a blank API
key is rejected with no request issued. -/
theorem c4_save_validation_witness :
    (handleSave ⟨true, "https://api.openai.com/v1", "", "gpt-3.5-turbo",
        1, 1000⟩).2 = none ∧
    ∃ m, (handleSave ⟨true, "https://api.openai.com/v1", "", "gpt-3.5-turbo",
        1, 1000⟩).1 = some m :=
  ((c4_save_validation ⟨true, "https://api.openai.com/v1", "", "gpt-3.5-turbo",
      1, 1000⟩).1 rfl).1.mpr (by right; left; decide)

/-- The body of the POST to /api/admin/ai-recommend/test: exactly the
three fields {apiUrl, apiKey, model} (AIRecommendConfig.tsx 124-128). -/
structure TestRequest where
  apiUrl : String
  apiKey : String
  model : String
  deriving DecidableEq

/-- `handleTest` (AIRecommendConfig.tsx lines 113-129): the guard checks
only apiUrl and apiKey; on pass, the request body carries the three
untrimmed fields. Returns the error message shown (if any) and the
request body sent (if any). -/
def handleTest (s : AISettings) : Option String × Option TestRequest :=
  if jsTrim s.apiUrl = "" ∨ jsTrim s.apiKey = "" then
    (some "请先填写API地址和密钥", none)
  else (none, some ⟨s.apiUrl, s.apiKey, s.model⟩)

/-- Claim C8 as stated is false: with a nonblank apiUrl and apiKey but a
blank model, the connectivity test is not blocked — the request is sent
with the blank model field (line 114 checks only apiUrl and apiKey). -/
theorem c8_counterexample :
    (handleTest ⟨true, "https://u", "k", "", 1, 100⟩).2
      = some ⟨"https://u", "k", ""⟩ ∧
    jsTrim (AISettings.mk true "https://u" "k" "" 1 100).model = "" := by
  constructor
  · decide
  · decide

/-- Claim C8 (amended): the connectivity test sends exactly the three
fields {apiUrl, apiKey, model} of the current settings, and is blocked
(error shown, no request) exactly when apiUrl or apiKey is blank after
trimming; a blank model does not block it. -/
theorem c8_test_request (s : AISettings) :
    ((jsTrim s.apiUrl = "" ∨ jsTrim s.apiKey = "") →
      (handleTest s).2 = none ∧ (handleTest s).1 = some "请先填写API地址和密钥") ∧
    (¬ (jsTrim s.apiUrl = "" ∨ jsTrim s.apiKey = "") →
      (handleTest s).2 = some ⟨s.apiUrl, s.apiKey, s.model⟩ ∧
      (handleTest s).1 = none) := by
  refine ⟨fun h => ?_, fun h => ?_⟩
  · simp only [handleTest]
    rw [if_pos h]
    exact ⟨rfl, rfl⟩
  · simp only [handleTest]
    rw [if_neg h]
    exact ⟨rfl, rfl⟩

/-- Witness for c8_test_request: a blank apiKey blocks the test. -/
theorem c8_test_request_witness :
    (handleTest ⟨true, "https://u", " ", "m", 1, 100⟩).2 = none ∧
    (handleTest ⟨true, "https://u", " ", "m", 1, 100⟩).1
      = some "请先填写API地址和密钥" :=
  (c8_test_request ⟨true, "https://u", " ", "m", 1, 100⟩).1 (by right; decide)

/-- `truncateTitle` (YouTubeVideoCard.tsx lines 49-51) with its default
maxLength of 50, on the title's character sequence:
`title.length > 50 ? title.substring(0, 50) + "..." : title`. -/
def truncateTitle (title : List Char) : List Char :=
  if title.length > 50 then title.take 50 ++ "...".data else title

/-- Claim C10: truncateTitle returns titles of at most 50 characters
unchanged, and otherwise the first 50 characters followed by "...", so
the result never exceeds 53 characters. -/
theorem c10_truncate_title (title : List Char) :
    (title.length ≤ 50 → truncateTitle title = title) ∧
    (50 < title.length →
      truncateTitle title = title.take 50 ++ "...".data ∧
      (truncateTitle title).length = 53) ∧
    (truncateTitle title).length ≤ 53 := by
  by_cases h : 50 < title.length
  · have hres : truncateTitle title = title.take 50 ++ "...".data := by
      simp only [truncateTitle]
      rw [if_pos h]
    have hlen : (truncateTitle title).length = 53 := by
      rw [hres, List.length_append, List.length_take]
      have h3 : ("...".data).length = 3 := by decide
      rw [h3]
      omega
    exact ⟨fun hle => absurd h (by omega), fun _ => ⟨hres, hlen⟩, by omega⟩
  · have hres : truncateTitle title = title := by
      simp only [truncateTitle]
      rw [if_neg h]
    exact ⟨fun _ => hres, fun hgt => absurd hgt h, by rw [hres]; omega⟩

/-- Witness for c10_truncate_title: a 60-character title is cut to its
first 50 characters plus "...". -/
theorem c10_truncate_title_witness :
    truncateTitle (List.replicate 60 'a')
      = (List.replicate 60 'a').take 50 ++ "...".data :=
  ((c10_truncate_title (List.replicate 60 'a')).2.1 (by decide)).1

end LunaTV
